import Mathlib

/-!
Shallow embedding of `src/sql_database.py`: the connection context manager
`connect_to_localhost` and the provisioning function `create_schema`.

The connector test double is a single natural number `failFirst`: the
connection attempt numbered `i` (counting from 0) succeeds iff `i ≥ failFirst`,
i.e. the connector fails the first `failFirst` attempts and succeeds on the
next one.  This mirrors the spec "connector that fails N times then
succeeds" test double.
-/

namespace SqlDatabase

/-- Module-level constant `schema = "application_project_gaube"`
(line 22 of `sql_database.py`). -/
def schemaConst : String := "application_project_gaube"

/-- The connector double: attempt number `i` (0-based) succeeds iff the
first `failFirst` attempts are already spent. -/
def connectOnce (failFirst : Nat) (attemptIdx : Nat) : Bool :=
  failFirst ≤ attemptIdx

/-- An error raised by the connector or by the retry loop; it carries the
message string of the raised `mysql.connector.Error`. -/
structure ConnErr where
  msg : String
deriving DecidableEq, Repr

/-- The retry loop of `connect_to_localhost` (lines 45-60):
`tries = 0; while True: if tries > 5: raise Error("Could not connect to
database"); sleep(60); try: connect; break; except: tries += 1`.
`attemptIdx` is the 0-based number of the next attempt to make.
Returns the index of the successful attempt, or the raised error. -/
def retryLoop (failFirst : Nat) (attemptIdx : Nat) (tries : Nat) :
    Except ConnErr Nat :=
  if tries > 5 then
    .error ⟨"Could not connect to database"⟩
  else if connectOnce failFirst attemptIdx then
    .ok attemptIdx
  else
    retryLoop failFirst (attemptIdx + 1) (tries + 1)
termination_by 6 - tries

/-- The connection phase of `connect_to_localhost` (lines 36-60): one
immediate attempt; on failure, the retry loop starting at `tries = 0`. -/
def connect_to_localhost (failFirst : Nat) : Except ConnErr Nat :=
  if connectOnce failFirst 0 then .ok 0
  else retryLoop failFirst 1 0

/-- How the body of a `with connect_to_localhost() as db:` scope exits. -/
inductive BodyExit where
  | normal      -- body runs to completion
  | earlyReturn -- body executes `return`
  | raises      -- body raises an exception
deriving DecidableEq, Repr

/-- Observable result of one whole context-manager scope. -/
structure ScopeResult where
  /-- a connection was ever opened (`db` was ever not `None`) -/
  opened : Bool
  /-- number of times `db.close()` ran -/
  closes : Nat
  /-- the scope re-raised the connection error -/
  connFailed : Bool
  /-- the exception of the body propagated out of the scope -/
  bodyRaised : Bool
deriving DecidableEq, Repr

/-- The whole context manager (lines 25-66): `db = None`; connect with
retries; `yield db`; `finally: if db is not None: db.close()`.  The
`finally` clause runs on every exit path, and closes iff `db` was set. -/
def managedScope (failFirst : Nat) (body : BodyExit) : ScopeResult :=
  match connect_to_localhost failFirst with
  | .error _ =>
      -- `db` is still None: the finally clause does not close
      { opened := false, closes := 0, connFailed := true, bodyRaised := false }
  | .ok _ =>
      -- `db` is set; the finally clause closes exactly once whichever way
      -- the body exits
      { opened := true, closes := 1, connFailed := false,
        bodyRaised := body = BodyExit.raises }

/-! ### The schema: table definitions (the six CREATE TABLE statements) -/

/-- One `FOREIGN KEY (column) REFERENCES refTable(refColumn) [ON DELETE CASCADE]`
clause of a CREATE TABLE statement. -/
structure FKSpec where
  column : String
  refTable : String
  refColumn : String
  cascade : Bool
deriving DecidableEq, Repr

/-- One CREATE TABLE statement: the table name, its column names in order,
and its foreign-key clauses. -/
structure TableDef where
  name : String
  columns : List String
  fks : List FKSpec
deriving DecidableEq, Repr

/-- `CREATE TABLE dataset` (lines 104-109). -/
def datasetDef : TableDef :=
  { name := "dataset", columns := ["id", "student"], fks := [] }

/-- `CREATE TABLE exam` (lines 111-116). -/
def examDef : TableDef :=
  { name := "exam", columns := ["id", "term"], fks := [] }

/-- `CREATE TABLE hrv` (lines 118-123). -/
def hrvDef : TableDef :=
  { name := "hrv", columns := ["id", "parameter"], fks := [] }

/-- `CREATE TABLE inter_beat_interval` (lines 125-136). -/
def interBeatIntervalDef : TableDef :=
  { name := "inter_beat_interval"
    columns := ["id", "student_id", "term_id", "ibi_value_id", "ibi_value",
                "timestamp"]
    fks := [⟨"student_id", "dataset", "id", true⟩,
            ⟨"term_id", "exam", "id", false⟩] }

/-- `CREATE TABLE master_data` (lines 138-151). -/
def masterDataDef : TableDef :=
  { name := "master_data"
    columns := ["id", "student_id", "term_id", "grade", "nni_mean", "sdnn",
                "number_of_ibi", "duration_in_h"]
    fks := [⟨"student_id", "dataset", "id", true⟩,
            ⟨"term_id", "exam", "id", false⟩] }

/-- `CREATE TABLE window_values` (lines 153-167). -/
def windowValuesDef : TableDef :=
  { name := "window_values"
    columns := ["id", "student_id", "term_id", "window_id", "timestamp",
                "parameter_id", "hrv_value", "number_of_ibi"]
    fks := [⟨"student_id", "dataset", "id", true⟩,
            ⟨"term_id", "exam", "id", false⟩,
            ⟨"parameter_id", "hrv", "id", false⟩] }

/-- The six CREATE TABLE statements in the order `create_schema` issues them
(lines 104-167). -/
def tableDDL : List TableDef :=
  [datasetDef, examDef, hrvDef, interBeatIntervalDef, masterDataDef,
   windowValuesDef]

/-! ### Events emitted by `create_schema` -/

/-- A SQL statement issued through `cursor.execute`. -/
inductive Stmt where
  /-- `SELECT SCHEMA_NAME FROM INFORMATION_SCHEMA.SCHEMATA WHERE
  SCHEMA_NAME = "name"` -/
  | selectSchemata (name : String)
  | dropDatabase (name : String)
  | createDatabase (name : String)
  | useDb (name : String)
  | createTable (t : TableDef)
  /-- `INSERT INTO exam (term) VALUES (%s)` with parameter `term` -/
  | insertExam (term : String)
  /-- `INSERT INTO hrv (parameter) VALUES (%s)` with parameter `param` -/
  | insertHrv (param : String)
deriving DecidableEq, Repr

/-- One observable step of a `create_schema` run. -/
inductive Event where
  | exec (s : Stmt)
  | printMsg (msg : String)
  /-- the `input("Do you want to delete it? (y/n): ")` call -/
  | promptUser
  /-- `db.commit()` -/
  | commitEv
deriving DecidableEq, Repr

/-- The `str.lower()` method of Python, restricted to what the prompt compares. -/
def lowerStr (s : String) : String :=
  String.mk (s.data.map Char.toLower)

/-- The decision of the operator in the conflict-resolution loop. -/
inductive Decision where
  | replace -- input lowered to "y"
  | retain  -- input lowered to "n"
deriving DecidableEq, Repr

/-- The `while True` prompt loop (lines 88-99), run against a finite queue
of operator inputs.  Each iteration prompts and reads one input; `"y"` and
`"n"` (case-insensitive) end the loop, anything else prints
`"invalid input.."` and re-prompts.  Returns `none` when the queue is
exhausted while the loop is still re-prompting (the source would keep
looping, waiting for more input). -/
def promptLoop : List String → Option (List Event × Decision)
  | [] => none
  | i :: rest =>
      if lowerStr i = "y" then
        some ([.promptUser], .replace)
      else if lowerStr i = "n" then
        some ([.promptUser], .retain)
      else
        (promptLoop rest).map fun r =>
          (.promptUser :: .printMsg "invalid input.." :: r.1, r.2)

/-- How a `create_schema` run ends. -/
inductive Outcome where
  /-- the early `return` on the retain branch (line 96) -/
  | earlyReturn
  /-- the function body ran to its end through `db.commit()` -/
  | completed
deriving DecidableEq, Repr

/-- The straight-line tail of `create_schema` (lines 101-175): CREATE
DATABASE and USE on the `schema_name` parameter, the six CREATE TABLE
statements, the seed inserts, then the single `db.commit()`. -/
def mainEvents (schema_name : String) : List Event :=
  [.exec (.createDatabase schema_name), .exec (.useDb schema_name)]
  ++ tableDDL.map (fun t => .exec (.createTable t))
  ++ ["mid1", "mid2", "final"].map (fun t => .exec (.insertExam t))
  ++ ["nni_mean", "sdnn"].map (fun p => .exec (.insertHrv p))
  ++ [.commitEv]

set_option linter.unusedVariables false in
/-- The existence-check statement built on line 84: the f-string
interpolates the module constant `schema`, not the `schema_name`
parameter of `create_schema`. -/
def existenceCheckStmt (schema_name : String) : Stmt :=
  .selectSchemata schemaConst

set_option linter.unusedVariables false in
/-- Truthiness of `cursor.fetchone()` after the line-84 query, against a
catalog of existing schema names: a row comes back iff the catalog holds
the name the query asked for, which is the module constant. -/
def schemaFound (schema_name : String) (catalog : List String) : Bool :=
  catalog.contains schemaConst

/-- `create_schema(schema_name)` (lines 69-175), run against a catalog of
existing schema names and a queue of operator inputs.  Returns the event
trace and the outcome, or `none` when the prompt loop never receives an
accepted answer. -/
def create_schema (schema_name : String) (catalog : List String)
    (inputs : List String) : Option (List Event × Outcome) :=
  let checkEvs : List Event := [.exec (existenceCheckStmt schema_name)]
  if schemaFound schema_name catalog then
    match promptLoop inputs with
    | none => none
    | some (pEvs, .retain) =>
        some (checkEvs
          ++ [.printMsg ("Schema " ++ schemaConst ++ " already exists.")]
          ++ pEvs, .earlyReturn)
    | some (pEvs, .replace) =>
        some (checkEvs
          ++ [.printMsg ("Schema " ++ schemaConst ++ " already exists.")]
          ++ pEvs
          ++ [.exec (.dropDatabase schemaConst),
              .printMsg ("Schema " ++ schemaConst ++ " deleted successfully.")]
          ++ mainEvents schema_name, .completed)
  else
    some (checkEvs ++ mainEvents schema_name, .completed)

/-- Does a statement mutate persisted database state?  DROP DATABASE,
CREATE DATABASE, CREATE TABLE and the INSERTs do; the catalog SELECT and
USE do not. -/
def isMutatingStmt : Stmt → Bool
  | .selectSchemata _ => false
  | .dropDatabase _ => true
  | .createDatabase _ => true
  | .useDb _ => false
  | .createTable _ => true
  | .insertExam _ => true
  | .insertHrv _ => true

/-- Does an event mutate persisted database state? -/
def mutatesDB : Event → Bool
  | .exec s => isMutatingStmt s
  | _ => false

/-- The CREATE TABLE statements of a trace, in order. -/
def createdTables (tr : List Event) : List TableDef :=
  tr.filterMap fun e =>
    match e with
    | .exec (.createTable t) => some t
    | _ => none

/-! ### Engine state semantics for provisioning traces

For claims about the end state of a run (seed rows, untouched tables) we
interpret the event trace over a simple engine state: the set of existing
databases and, for the bound database of the session, a map from table name to
its list of inserted seed values (only `exam` and `hrv` ever receive
inserts, each insert carrying one string). -/

/-- Engine state seen by a provisioning trace. -/
structure EngineState where
  /-- names of existing databases -/
  databases : List String
  /-- tables of the bound database: name, definition, inserted values -/
  tables : List (String × TableDef × List String)
deriving DecidableEq, Repr

/-- Append a value to the rows of the named table. -/
def insertRow (tname value : String) :
    List (String × TableDef × List String) →
    List (String × TableDef × List String)
  | [] => []
  | (n, d, rs) :: rest =>
      if n = tname then (n, d, rs ++ [value]) :: rest
      else (n, d, rs) :: insertRow tname value rest

/-- Effect of one event on the engine state.  SELECT, prints, prompts and
commit do not change the visible state; DDL and DML do. -/
def applyEvent (st : EngineState) : Event → EngineState
  | .exec (.selectSchemata _) => st
  | .exec (.dropDatabase n) =>
      { st with databases := st.databases.filter (· ≠ n) }
  | .exec (.createDatabase n) =>
      { st with databases := st.databases ++ [n] }
  | .exec (.useDb _) => st
  | .exec (.createTable t) =>
      { st with tables := st.tables ++ [(t.name, t, [])] }
  | .exec (.insertExam v) => { st with tables := insertRow "exam" v st.tables }
  | .exec (.insertHrv v) => { st with tables := insertRow "hrv" v st.tables }
  | .printMsg _ => st
  | .promptUser => st
  | .commitEv => st

/-- Run a trace over a state. -/
def applyEvents (evs : List Event) (st : EngineState) : EngineState :=
  evs.foldl applyEvent st

/-- Rows of the named table in a state, `none` if the table does not exist. -/
def tableRows (st : EngineState) (tname : String) : Option (List String) :=
  (st.tables.find? (fun e => e.1 = tname)).map (fun e => e.2.2)

/-! ### Failure propagation

`create_schema` contains no try/except: if `cursor.execute` or
`db.commit()` raises at any step, the exception propagates out of the
function (through the `finally` clause of the context manager).  We model an engine
oracle that decides which events succeed, and a runner that performs
events until the first failing one. -/

/-- Perform events left to right; the first event the oracle rejects
aborts the run (the exception propagates, nothing after it runs).
Returns the performed prefix and whether the run raised. -/
def runWithEngine (ok : Event → Bool) : List Event → List Event × Bool
  | [] => ([], false)
  | e :: rest =>
      if ok e then
        let r := runWithEngine ok rest
        (e :: r.1, r.2)
      else ([], true)

/-! ### Cascade-delete semantics for the declared schema

`DELETE FROM dataset WHERE id = sid` under the declared foreign keys:
the `dataset` row goes away, and every table that declares a foreign key
to `dataset` with `ON DELETE CASCADE` loses the rows whose FK column
holds `sid`.  Rows are column valuations. -/

/-- A row: a valuation of column names. -/
def Row : Type := String → Int

/-- Data of the bound database: rows per table name. -/
def DBData : Type := String → List Row

/-- Does row `r` of table `t` reference `dataset` key `sid` through a
cascade foreign key? -/
def cascadeHits (t : TableDef) (sid : Int) (r : Row) : Bool :=
  t.fks.any fun fk =>
    fk.refTable = "dataset" && fk.cascade && r fk.column = sid

/-- Cascade delete of the `dataset` row with id `sid`, driven by the
foreign-key clauses declared in `defs`. -/
def cascadeDeleteDataset (defs : List TableDef) (sid : Int) (d : DBData) :
    DBData := fun tname =>
  if tname = "dataset" then
    (d "dataset").filter fun r => r "id" ≠ sid
  else
    match defs.find? (fun t => t.name = tname) with
    | some t => (d tname).filter fun r => ¬ cascadeHits t sid r
    | none => d tname

/-! ### Helper lemmas -/

/-- Running a concatenated trace runs the pieces in order. -/
theorem applyEvents_append (l₁ l₂ : List Event) (st : EngineState) :
    applyEvents (l₁ ++ l₂) st = applyEvents l₂ (applyEvents l₁ st) :=
  List.foldl_append _ _ _ _

/-- The events the prompt loop itself emits are only prompts and prints. -/
theorem promptLoop_events (inputs : List String) (pEvs : List Event)
    (d : Decision) (h : promptLoop inputs = some (pEvs, d)) :
    ∀ e ∈ pEvs, e = Event.promptUser ∨ ∃ m, e = Event.printMsg m := by
  induction inputs generalizing pEvs d with
  | nil => simp [promptLoop] at h
  | cons i rest ih =>
      simp only [promptLoop] at h
      by_cases hy : lowerStr i = "y"
      · rw [if_pos hy] at h
        obtain ⟨h1, h2⟩ := Prod.mk.inj (Option.some.inj h)
        subst h1
        simp
      · by_cases hn : lowerStr i = "n"
        · rw [if_neg hy, if_pos hn] at h
          obtain ⟨h1, h2⟩ := Prod.mk.inj (Option.some.inj h)
          subst h1
          simp
        · rw [if_neg hy, if_neg hn] at h
          rw [Option.map_eq_some'] at h
          obtain ⟨⟨evs', d'⟩, hrec, hfd⟩ := h
          obtain ⟨h1, h2⟩ := Prod.mk.inj hfd
          subst h1
          intro e he
          rcases List.mem_cons.mp he with he | he
          · exact Or.inl he
          rcases List.mem_cons.mp he with he | he
          · exact Or.inr ⟨_, he⟩
          · exact ih evs' d' hrec e he

/-- Prompts and prints leave the engine state unchanged. -/
theorem applyEvents_prompt_id (evs : List Event)
    (h : ∀ e ∈ evs, e = Event.promptUser ∨ ∃ m, e = Event.printMsg m)
    (st : EngineState) : applyEvents evs st = st := by
  induction evs generalizing st with
  | nil => rfl
  | cons e rest ih =>
      have he := h e (by simp)
      have hrest : ∀ x ∈ rest, x = Event.promptUser ∨ ∃ m, x = Event.printMsg m :=
        fun x hx => h x (by simp [hx])
      rcases he with he | ⟨m, he⟩ <;> subst he <;>
        simpa [applyEvents, applyEvent] using ih hrest st

/-- The characterization of the prompt loop when it terminates: the inputs
split into a run of rejected inputs followed by the first accepted one;
each rejected input produced one prompt and one invalid-input message, and
the decision comes from the accepted input. -/
theorem promptLoop_some_spec (inputs : List String) (pEvs : List Event)
    (d : Decision) (h : promptLoop inputs = some (pEvs, d)) :
    ∃ pre i post, inputs = pre ++ i :: post ∧
      (∀ j ∈ pre, lowerStr j ≠ "y" ∧ lowerStr j ≠ "n") ∧
      ((lowerStr i = "y" ∧ d = Decision.replace) ∨
        (lowerStr i = "n" ∧ d = Decision.retain)) ∧
      pEvs = (pre.map fun _ =>
          [Event.promptUser, Event.printMsg "invalid input.."]).flatten
        ++ [Event.promptUser] := by
  induction inputs generalizing pEvs d with
  | nil => simp [promptLoop] at h
  | cons i rest ih =>
      simp only [promptLoop] at h
      by_cases hy : lowerStr i = "y"
      · rw [if_pos hy] at h
        obtain ⟨h1, h2⟩ := Prod.mk.inj (Option.some.inj h)
        exact ⟨[], i, rest, by simp, by simp, Or.inl ⟨hy, h2.symm⟩, by simp [← h1]⟩
      · by_cases hn : lowerStr i = "n"
        · rw [if_neg hy, if_pos hn] at h
          obtain ⟨h1, h2⟩ := Prod.mk.inj (Option.some.inj h)
          exact ⟨[], i, rest, by simp, by simp, Or.inr ⟨hn, h2.symm⟩,
            by simp [← h1]⟩
        · rw [if_neg hy, if_neg hn] at h
          rw [Option.map_eq_some'] at h
          obtain ⟨⟨evs', d'⟩, hrec, hfd⟩ := h
          obtain ⟨h1, h2⟩ := Prod.mk.inj hfd
          obtain ⟨pre, j, post, hsplit, hpre, hdec, hevs⟩ :=
            ih evs' d' hrec
          refine ⟨i :: pre, j, post, by simp [hsplit], ?_, ?_, ?_⟩
          · intro x hx
            rcases List.mem_cons.mp hx with hx | hx
            · exact hx ▸ ⟨hy, hn⟩
            · exact hpre x hx
          · subst h2; exact hdec
          · rw [← h1, hevs]; simp

/-- The prompt loop exhausts its input queue (and would keep looping)
iff no input lowers to an accepted answer. -/
theorem promptLoop_none_iff (inputs : List String) :
    promptLoop inputs = none ↔
      ∀ i ∈ inputs, lowerStr i ≠ "y" ∧ lowerStr i ≠ "n" := by
  induction inputs with
  | nil => simp [promptLoop]
  | cons i rest ih =>
      simp only [promptLoop]
      by_cases hy : lowerStr i = "y"
      · rw [if_pos hy]
        simp [hy]
      · by_cases hn : lowerStr i = "n"
        · rw [if_neg hy, if_pos hn]
          simp [hn]
        · rw [if_neg hy, if_neg hn]
          rw [Option.map_eq_none', ih]
          constructor
          · intro hall x hx
            rcases List.mem_cons.mp hx with hx | hx
            · exact hx ▸ ⟨hy, hn⟩
            · exact hall x hx
          · intro hall x hx
            exact hall x (List.mem_cons_of_mem _ hx)

/-- A run under an engine oracle either performs every event without
raising (and then every event satisfied the oracle), or raises having
performed only a proper initial segment of the trace. -/
theorem runWithEngine_spec (ok : Event → Bool) : ∀ evs : List Event,
    ((runWithEngine ok evs).2 = false ∧ (runWithEngine ok evs).1 = evs ∧
      ∀ e ∈ evs, ok e = true) ∨
    ((runWithEngine ok evs).2 = true ∧
      ∃ k, k < evs.length ∧ (runWithEngine ok evs).1 = evs.take k) := by
  intro evs
  induction evs with
  | nil => exact Or.inl ⟨rfl, rfl, by simp⟩
  | cons e rest ih =>
      by_cases he : ok e
      · rcases ih with ⟨h2, h1, hall⟩ | ⟨h2, k, hk, h1⟩
        · refine Or.inl ⟨?_, ?_, ?_⟩
          · simp [runWithEngine, he, h2]
          · simp [runWithEngine, he, h1]
          · intro x hx
            rcases List.mem_cons.mp hx with hx | hx
            · exact hx ▸ he
            · exact hall x hx
        · refine Or.inr ⟨?_, k + 1, ?_, ?_⟩
          · simp [runWithEngine, he, h2]
          · simpa using hk
          · simp [runWithEngine, he, h1]
      · refine Or.inr ⟨?_, 0, ?_, ?_⟩
        · simp [runWithEngine, he]
        · simp
        · simp [runWithEngine, he]

/-- The final tables after running the straight-line tail of
`create_schema` on a freshly created (table-less) database: all six tables
exist, `exam` holds exactly the three seeded terms, `hrv` exactly the two
seeded parameters, and the other four tables are empty. -/
theorem mainEvents_tables (s : String) (dbs : List String) :
    (applyEvents (mainEvents s) ⟨dbs, []⟩).tables =
      [("dataset", datasetDef, []),
       ("exam", examDef, ["mid1", "mid2", "final"]),
       ("hrv", hrvDef, ["nni_mean", "sdnn"]),
       ("inter_beat_interval", interBeatIntervalDef, []),
       ("master_data", masterDataDef, []),
       ("window_values", windowValuesDef, [])] := rfl

/-- When at least seven connection attempts fail, the retry loop raises:
reached with next-attempt index `i` and counter `tries` such that
`i + (6 - tries) ≤ 7`, every attempt it can still make fails. -/
theorem retryLoop_error_of_ge (n : Nat) (hn : 7 ≤ n) :
    ∀ k t i, 6 - t ≤ k → i + (6 - t) ≤ 7 →
      retryLoop n i t = Except.error ⟨"Could not connect to database"⟩ := by
  intro k
  induction k with
  | zero =>
      intro t i ht hi
      have h6 : t > 5 := by omega
      rw [retryLoop, if_pos h6]
  | succ k ih =>
      intro t i ht hi
      by_cases h6 : t > 5
      · rw [retryLoop, if_pos h6]
      · have hconn : connectOnce n i = false := by
          have : i < n := by omega
          simp [connectOnce]
          omega
        rw [retryLoop, if_neg h6, hconn]
        simp only [Bool.false_eq_true, if_false]
        exact ih (t + 1) (i + 1) (by omega) (by omega)

/-- The six tables with their seed rows, as left behind by the
straight-line tail of `create_schema`. -/
def seededTables : List (String × TableDef × List String) :=
  [("dataset", datasetDef, []),
   ("exam", examDef, ["mid1", "mid2", "final"]),
   ("hrv", hrvDef, ["nni_mean", "sdnn"]),
   ("inter_beat_interval", interBeatIntervalDef, []),
   ("master_data", masterDataDef, []),
   ("window_values", windowValuesDef, [])]

/-- Running the straight-line tail of `create_schema` on a freshly created
(table-less) database creates the new database and leaves exactly the
seeded tables. -/
theorem mainEvents_state (s : String) (dbs : List String) :
    applyEvents (mainEvents s) ⟨dbs, []⟩ = ⟨dbs ++ [s], seededTables⟩ := rfl

/-- The straight-line tail is a block of statements followed by the single
`db.commit()`. -/
theorem mainEvents_split (s : String) :
    mainEvents s =
      [Event.exec (Stmt.createDatabase s), Event.exec (Stmt.useDb s),
       Event.exec (Stmt.createTable datasetDef),
       Event.exec (Stmt.createTable examDef),
       Event.exec (Stmt.createTable hrvDef),
       Event.exec (Stmt.createTable interBeatIntervalDef),
       Event.exec (Stmt.createTable masterDataDef),
       Event.exec (Stmt.createTable windowValuesDef),
       Event.exec (Stmt.insertExam "mid1"), Event.exec (Stmt.insertExam "mid2"),
       Event.exec (Stmt.insertExam "final"),
       Event.exec (Stmt.insertHrv "nni_mean"),
       Event.exec (Stmt.insertHrv "sdnn")]
      ++ [Event.commitEv] := rfl

/-- Complete case analysis of a terminating `create_schema` run: either no
schema was found and provisioning ran straight through; or one was found
and the prompt decided retain (early return, only the check, a print and
the prompt events happened); or the prompt decided replace (drop, then
provisioning ran through). -/
theorem create_schema_cases (s : String) (catalog inputs : List String)
    (tr : List Event) (o : Outcome)
    (h : create_schema s catalog inputs = some (tr, o)) :
    (schemaFound s catalog = false ∧ o = Outcome.completed ∧
      tr = Event.exec (existenceCheckStmt s) :: mainEvents s) ∨
    (schemaFound s catalog = true ∧ ∃ pEvs,
      promptLoop inputs = some (pEvs, Decision.retain) ∧
      o = Outcome.earlyReturn ∧
      tr = Event.exec (existenceCheckStmt s)
        :: Event.printMsg ("Schema " ++ schemaConst ++ " already exists.")
        :: pEvs) ∨
    (schemaFound s catalog = true ∧ ∃ pEvs,
      promptLoop inputs = some (pEvs, Decision.replace) ∧
      o = Outcome.completed ∧
      tr = Event.exec (existenceCheckStmt s)
        :: Event.printMsg ("Schema " ++ schemaConst ++ " already exists.")
        :: (pEvs ++ Event.exec (Stmt.dropDatabase schemaConst)
            :: Event.printMsg ("Schema " ++ schemaConst
                ++ " deleted successfully.")
            :: mainEvents s)) := by
  by_cases hc : schemaFound s catalog = true
  · cases hp : promptLoop inputs with
    | none => simp [create_schema, hc, hp] at h
    | some r =>
        obtain ⟨pEvs, dec⟩ := r
        cases dec with
        | retain =>
            have heq : create_schema s catalog inputs =
                some (Event.exec (existenceCheckStmt s)
                  :: Event.printMsg ("Schema " ++ schemaConst
                      ++ " already exists.")
                  :: pEvs, Outcome.earlyReturn) := by
              simp [create_schema, hc, hp]
            rw [heq] at h
            obtain ⟨h1, h2⟩ := Prod.mk.inj (Option.some.inj h)
            exact Or.inr (Or.inl ⟨hc, pEvs, rfl, h2.symm, h1.symm⟩)
        | replace =>
            have heq : create_schema s catalog inputs =
                some (Event.exec (existenceCheckStmt s)
                  :: Event.printMsg ("Schema " ++ schemaConst
                      ++ " already exists.")
                  :: (pEvs ++ Event.exec (Stmt.dropDatabase schemaConst)
                      :: Event.printMsg ("Schema " ++ schemaConst
                          ++ " deleted successfully.")
                      :: mainEvents s), Outcome.completed) := by
              simp [create_schema, hc, hp]
            rw [heq] at h
            obtain ⟨h1, h2⟩ := Prod.mk.inj (Option.some.inj h)
            exact Or.inr (Or.inr ⟨hc, pEvs, rfl, h2.symm, h1.symm⟩)
  · have heq : create_schema s catalog inputs =
        some (Event.exec (existenceCheckStmt s) :: mainEvents s,
          Outcome.completed) := by
      simp [create_schema, hc]
    rw [heq] at h
    obtain ⟨h1, h2⟩ := Prod.mk.inj (Option.some.inj h)
    exact Or.inl ⟨by simpa using hc, h2.symm, h1.symm⟩

/-! ### The claims -/

/-- C1: the claim states that `connect_to_localhost` yields a live
connection iff at most 5 initial attempts fail, and raises
"Could not connect to database" iff more than 5 fail.  Evaluating the
embedded code: after 6 failing attempts the code still succeeds (on its
seventh attempt, the sixth retry), and only with 7 failing attempts does
it raise.  The loop guard `tries > 5` grants 6 retries, one more than the
documented 5, so the claim (and the docstring of the source) disagree with
the code at N = 6. -/
theorem c1_retry_budget_eval :
    connect_to_localhost 0 = Except.ok 0 ∧
    connect_to_localhost 1 = Except.ok 1 ∧
    connect_to_localhost 2 = Except.ok 2 ∧
    connect_to_localhost 3 = Except.ok 3 ∧
    connect_to_localhost 4 = Except.ok 4 ∧
    connect_to_localhost 5 = Except.ok 5 ∧
    connect_to_localhost 6 = Except.ok 6 ∧
    connect_to_localhost 7 =
      Except.error ⟨"Could not connect to database"⟩ := by
  refine ⟨?_, ?_, ?_, ?_, ?_, ?_, ?_, ?_⟩ <;>
    simp [connect_to_localhost, retryLoop, connectOnce]

/-- C2: for every connector behavior and every way the body exits the
`with connect_to_localhost() as db:` scope (normal completion, early
return, exception), `db.close()` runs exactly once when a connection was
opened and never when none was (a connection is opened exactly when the
connection phase succeeds). -/
theorem c2_scoped_release_close_once (failFirst : Nat) (body : BodyExit) :
    (managedScope failFirst body).closes =
      (if (managedScope failFirst body).opened then 1 else 0) ∧
    ((managedScope failFirst body).opened = true ↔
      ∃ k, connect_to_localhost failFirst = Except.ok k) := by
  cases h : connect_to_localhost failFirst <;> simp [managedScope, h]

/-- Witness for C2 at a concrete input (all attempts fail, body raises). -/
theorem c2_scoped_release_close_once_witness :
    (managedScope 7 BodyExit.raises).closes =
      (if (managedScope 7 BodyExit.raises).opened then 1 else 0) ∧
    ((managedScope 7 BodyExit.raises).opened = true ↔
      ∃ k, connect_to_localhost 7 = Except.ok k) :=
  c2_scoped_release_close_once 7 BodyExit.raises

/-- C3: the existence check of `create_schema` queries the catalog for the
module constant `application_project_gaube`, not for the `schema_name`
parameter: every terminating run opens with that constant query, and the
outcome of the check does not depend on the parameter. -/
theorem c3_existence_check_ignores_param (s₁ s₂ : String)
    (catalog inputs : List String) (tr : List Event) (o : Outcome)
    (h : create_schema s₁ catalog inputs = some (tr, o)) :
    tr.head? = some (Event.exec (Stmt.selectSchemata schemaConst)) ∧
    existenceCheckStmt s₁ = Stmt.selectSchemata schemaConst ∧
    schemaFound s₁ catalog = schemaFound s₂ catalog := by
  refine ⟨?_, rfl, rfl⟩
  rcases create_schema_cases s₁ catalog inputs tr o h with
    ⟨_, _, htr⟩ | ⟨_, pEvs, _, _, htr⟩ | ⟨_, pEvs, _, _, htr⟩ <;>
    simp [htr, existenceCheckStmt]

/-- Witness for C3 at concrete inputs. -/
theorem c3_existence_check_ignores_param_witness :
    ([Event.exec (existenceCheckStmt "a")] ++ mainEvents "a").head? =
      some (Event.exec (Stmt.selectSchemata schemaConst)) ∧
    existenceCheckStmt "a" = Stmt.selectSchemata schemaConst ∧
    schemaFound "a" [] = schemaFound "b" [] :=
  c3_existence_check_ignores_param "a" "b" [] [] _ _ rfl

/-- C4: when the existence check finds a matching schema and the prompt
decides retain (an input lowering to "n"), `create_schema` returns through
the early `return`: the trace carries no DROP, CREATE or INSERT statement
and leaves any engine state exactly as it was. -/
theorem c4_retain_leaves_everything_unchanged (s : String)
    (catalog inputs : List String) (pEvs : List Event)
    (hc : schemaFound s catalog = true)
    (hp : promptLoop inputs = some (pEvs, Decision.retain)) :
    ∃ tr, create_schema s catalog inputs = some (tr, Outcome.earlyReturn) ∧
      (∀ e ∈ tr, mutatesDB e = false) ∧
      ∀ st : EngineState, applyEvents tr st = st := by
  have hshape := promptLoop_events inputs pEvs Decision.retain hp
  refine ⟨Event.exec (existenceCheckStmt s)
    :: Event.printMsg ("Schema " ++ schemaConst ++ " already exists.")
    :: pEvs, ?_, ?_, ?_⟩
  · simp [create_schema, hc, hp]
  · intro e he
    rcases List.mem_cons.mp he with he | he
    · subst he; rfl
    rcases List.mem_cons.mp he with he | he
    · subst he; rfl
    · rcases hshape e he with he' | ⟨m, he'⟩ <;> subst he' <;> rfl
  · intro st
    show applyEvents ([Event.exec (existenceCheckStmt s),
      Event.printMsg ("Schema " ++ schemaConst ++ " already exists.")]
      ++ pEvs) st = st
    rw [applyEvents_append]
    exact applyEvents_prompt_id pEvs hshape st

/-- Witness for C4 at concrete inputs (existing schema, operator answers
an uppercase N). -/
theorem c4_retain_leaves_everything_unchanged_witness :
    ∃ tr, create_schema "a" [schemaConst] ["N"] =
        some (tr, Outcome.earlyReturn) ∧
      (∀ e ∈ tr, mutatesDB e = false) ∧
      ∀ st : EngineState, applyEvents tr st = st :=
  c4_retain_leaves_everything_unchanged "a" [schemaConst] ["N"]
    [Event.promptUser] (by decide) (by decide)

/-- C5: after every provisioning run that completes, starting from a fresh
(table-less) database, the `exam` table holds exactly the rows
mid1, mid2, final and the `hrv` table exactly nni_mean, sdnn — no
duplicates, no omissions — while the other four tables exist and are
empty. -/
theorem c5_seed_rows_exact (s : String) (catalog inputs : List String)
    (dbs : List String) (tr : List Event)
    (h : create_schema s catalog inputs = some (tr, Outcome.completed)) :
    tableRows (applyEvents tr ⟨dbs, []⟩) "exam" =
      some ["mid1", "mid2", "final"] ∧
    tableRows (applyEvents tr ⟨dbs, []⟩) "hrv" = some ["nni_mean", "sdnn"] ∧
    tableRows (applyEvents tr ⟨dbs, []⟩) "dataset" = some [] ∧
    tableRows (applyEvents tr ⟨dbs, []⟩) "inter_beat_interval" = some [] ∧
    tableRows (applyEvents tr ⟨dbs, []⟩) "master_data" = some [] ∧
    tableRows (applyEvents tr ⟨dbs, []⟩) "window_values" = some [] := by
  rcases create_schema_cases s catalog inputs tr _ h with
    ⟨_, _, htr⟩ | ⟨_, _, _, ho, _⟩ | ⟨_, pEvs, hp, _, htr⟩
  · subst htr
    have : applyEvents (Event.exec (existenceCheckStmt s) :: mainEvents s)
        ⟨dbs, []⟩ = applyEvents (mainEvents s) ⟨dbs, []⟩ := rfl
    rw [this, mainEvents_state]
    exact ⟨rfl, rfl, rfl, rfl, rfl, rfl⟩
  · exact absurd ho (by simp)
  · subst htr
    have hshape := promptLoop_events inputs pEvs Decision.replace hp
    have hsplit : Event.exec (existenceCheckStmt s)
        :: Event.printMsg ("Schema " ++ schemaConst ++ " already exists.")
        :: (pEvs ++ Event.exec (Stmt.dropDatabase schemaConst)
            :: Event.printMsg ("Schema " ++ schemaConst
                ++ " deleted successfully.")
            :: mainEvents s) =
        ([Event.exec (existenceCheckStmt s),
          Event.printMsg ("Schema " ++ schemaConst ++ " already exists.")]
          ++ pEvs)
        ++ ([Event.exec (Stmt.dropDatabase schemaConst),
             Event.printMsg ("Schema " ++ schemaConst
               ++ " deleted successfully.")]
            ++ mainEvents s) := by simp
    rw [hsplit, applyEvents_append, applyEvents_append, applyEvents_append]
    rw [applyEvents_prompt_id pEvs hshape]
    have hdrop : applyEvents
        [Event.exec (Stmt.dropDatabase schemaConst),
         Event.printMsg ("Schema " ++ schemaConst
           ++ " deleted successfully.")]
        (applyEvents [Event.exec (existenceCheckStmt s),
          Event.printMsg ("Schema " ++ schemaConst ++ " already exists.")]
          ⟨dbs, []⟩) =
        ⟨dbs.filter (· ≠ schemaConst), []⟩ := rfl
    rw [hdrop, mainEvents_state]
    exact ⟨rfl, rfl, rfl, rfl, rfl, rfl⟩

/-- Witness for C5 at concrete inputs (no prior schema, empty catalog). -/
theorem c5_seed_rows_exact_witness :
    tableRows (applyEvents ([Event.exec (existenceCheckStmt "a")]
      ++ mainEvents "a") ⟨[], []⟩) "exam" = some ["mid1", "mid2", "final"] ∧
    tableRows (applyEvents ([Event.exec (existenceCheckStmt "a")]
      ++ mainEvents "a") ⟨[], []⟩) "hrv" = some ["nni_mean", "sdnn"] ∧
    tableRows (applyEvents ([Event.exec (existenceCheckStmt "a")]
      ++ mainEvents "a") ⟨[], []⟩) "dataset" = some [] ∧
    tableRows (applyEvents ([Event.exec (existenceCheckStmt "a")]
      ++ mainEvents "a") ⟨[], []⟩) "inter_beat_interval" = some [] ∧
    tableRows (applyEvents ([Event.exec (existenceCheckStmt "a")]
      ++ mainEvents "a") ⟨[], []⟩) "master_data" = some [] ∧
    tableRows (applyEvents ([Event.exec (existenceCheckStmt "a")]
      ++ mainEvents "a") ⟨[], []⟩) "window_values" = some [] :=
  c5_seed_rows_exact "a" [] [] [] _ rfl

/-- C6: every completed provisioning run issues exactly the six CREATE
TABLE statements in source order — dataset, exam, hrv first (no foreign
keys), then inter_beat_interval, master_data, window_values — and at each
position every foreign-key target already appears among the previously
created tables. -/
theorem c6_ddl_dependency_order (s : String) (catalog inputs : List String)
    (tr : List Event)
    (h : create_schema s catalog inputs = some (tr, Outcome.completed)) :
    createdTables tr = tableDDL ∧
    ∀ i : Fin tableDDL.length, ∀ fk ∈ (tableDDL.get i).fks,
      fk.refTable ∈ (tableDDL.take i).map TableDef.name := by
  refine ⟨?_, by decide⟩
  rcases create_schema_cases s catalog inputs tr _ h with
    ⟨_, _, htr⟩ | ⟨_, _, _, ho, _⟩ | ⟨_, pEvs, hp, _, htr⟩
  · subst htr; rfl
  · exact absurd ho (by simp)
  · subst htr
    have hshape := promptLoop_events inputs pEvs Decision.replace hp
    have hnone : createdTables pEvs = [] := by
      refine List.filterMap_eq_nil_iff.mpr ?_
      intro e he
      rcases hshape e he with he' | ⟨m, he'⟩ <;> subst he' <;> rfl
    show createdTables ([Event.exec (existenceCheckStmt s),
        Event.printMsg ("Schema " ++ schemaConst ++ " already exists.")]
        ++ pEvs
        ++ (Event.exec (Stmt.dropDatabase schemaConst)
            :: Event.printMsg ("Schema " ++ schemaConst
                ++ " deleted successfully.")
            :: mainEvents s)) = tableDDL
    rw [createdTables, List.filterMap_append, List.filterMap_append]
    rw [createdTables] at hnone
    rw [hnone]
    rfl

/-- Witness for C6 at concrete inputs. -/
theorem c6_ddl_dependency_order_witness :
    createdTables ([Event.exec (existenceCheckStmt "a")] ++ mainEvents "a") =
      tableDDL ∧
    ∀ i : Fin tableDDL.length, ∀ fk ∈ (tableDDL.get i).fks,
      fk.refTable ∈ (tableDDL.take i).map TableDef.name :=
  c6_ddl_dependency_order "a" [] [] _ rfl

/-- C7: every completed provisioning run commits exactly once, as its very
last step, after all DDL and seed inserts; and under any engine in which
some statement of the run fails, the run raises (no handler catches it)
and the commit is never performed — a failed run is never reported as a
committed success. -/
theorem c7_single_commit_and_failure_surfaces (s : String)
    (catalog inputs : List String) (tr : List Event)
    (h : create_schema s catalog inputs = some (tr, Outcome.completed)) :
    (∃ front, tr = front ++ [Event.commitEv] ∧ Event.commitEv ∉ front) ∧
    ∀ ok : Event → Bool, (∃ e ∈ tr, ok e = false) →
      (runWithEngine ok tr).2 = true ∧
      Event.commitEv ∉ (runWithEngine ok tr).1 := by
  have h1 : ∃ front, tr = front ++ [Event.commitEv] ∧
      Event.commitEv ∉ front := by
    rcases create_schema_cases s catalog inputs tr _ h with
      ⟨_, _, htr⟩ | ⟨_, _, _, ho, _⟩ | ⟨_, pEvs, hp, _, htr⟩
    · refine ⟨Event.exec (existenceCheckStmt s)
        :: (mainEvents s).dropLast, ?_, ?_⟩
      · rw [htr, mainEvents_split]; rfl
      · rw [mainEvents_split]; simp
    · exact absurd ho (by simp)
    · have hshape := promptLoop_events inputs pEvs Decision.replace hp
      refine ⟨Event.exec (existenceCheckStmt s)
        :: Event.printMsg ("Schema " ++ schemaConst ++ " already exists.")
        :: (pEvs ++ Event.exec (Stmt.dropDatabase schemaConst)
            :: Event.printMsg ("Schema " ++ schemaConst
                ++ " deleted successfully.")
            :: (mainEvents s).dropLast), ?_, ?_⟩
      · rw [htr, mainEvents_split]; simp
      · rw [mainEvents_split]
        simp only [List.mem_cons, List.mem_append]
        intro hmem
        rcases hmem with hmem | hmem | hmem
        · exact Event.noConfusion hmem
        · exact Event.noConfusion hmem
        rcases hmem with hmem | hmem
        · rcases hshape _ hmem with he' | ⟨m, he'⟩ <;> exact
            Event.noConfusion he'
        · simp at hmem
  refine ⟨h1, ?_⟩
  rintro ok ⟨e, he, hfe⟩
  rcases runWithEngine_spec ok tr with ⟨_, _, hall⟩ | ⟨hr, k, hk, hperf⟩
  · rw [hall e he] at hfe
    exact Bool.noConfusion hfe
  · refine ⟨hr, ?_⟩
    obtain ⟨front, htr, hnf⟩ := h1
    rw [hperf]
    intro hmem
    rw [htr] at hmem hk
    have hkle : k ≤ front.length := by
      simp only [List.length_append, List.length_cons, List.length_nil] at hk
      omega
    rw [List.take_append_of_le_length hkle] at hmem
    exact hnf ((List.take_sublist k front).subset hmem)

/-- Witness for C7 at concrete inputs, with an engine that rejects every
CREATE TABLE statement. -/
theorem c7_single_commit_and_failure_surfaces_witness :
    (∃ front, [Event.exec (existenceCheckStmt "a")] ++ mainEvents "a" =
        front ++ [Event.commitEv] ∧ Event.commitEv ∉ front) ∧
    ∀ ok : Event → Bool,
      (∃ e ∈ [Event.exec (existenceCheckStmt "a")] ++ mainEvents "a",
        ok e = false) →
      (runWithEngine ok ([Event.exec (existenceCheckStmt "a")]
        ++ mainEvents "a")).2 = true ∧
      Event.commitEv ∉ (runWithEngine ok ([Event.exec (existenceCheckStmt "a")]
        ++ mainEvents "a")).1 :=
  c7_single_commit_and_failure_surfaces "a" [] [] _ rfl

/-- C8: the conflict prompt accepts exactly the case-insensitive answers
"y" and "n": it starves (keeps looping) iff no input lowers to one of
them; when it terminates, the inputs split into rejected ones — each
echoed with an invalid-input message and re-prompted — followed by the
first accepted answer, which alone determines the decision. -/
theorem c8_prompt_accepts_only_yn (inputs : List String) :
    (promptLoop inputs = none ↔
      ∀ i ∈ inputs, lowerStr i ≠ "y" ∧ lowerStr i ≠ "n") ∧
    ∀ pEvs d, promptLoop inputs = some (pEvs, d) →
      ∃ pre i post, inputs = pre ++ i :: post ∧
        (∀ j ∈ pre, lowerStr j ≠ "y" ∧ lowerStr j ≠ "n") ∧
        ((lowerStr i = "y" ∧ d = Decision.replace) ∨
          (lowerStr i = "n" ∧ d = Decision.retain)) ∧
        pEvs = (pre.map fun _ =>
            [Event.promptUser, Event.printMsg "invalid input.."]).flatten
          ++ [Event.promptUser] :=
  ⟨promptLoop_none_iff inputs,
    fun pEvs d h => promptLoop_some_spec inputs pEvs d h⟩

/-- Witness for C8 at a concrete input queue (one rejected input, then an
uppercase Y). -/
theorem c8_prompt_accepts_only_yn_witness :
    (promptLoop ["x", "Y"] = none ↔
      ∀ i ∈ ["x", "Y"], lowerStr i ≠ "y" ∧ lowerStr i ≠ "n") ∧
    ∀ pEvs d, promptLoop ["x", "Y"] = some (pEvs, d) →
      ∃ pre i post, ["x", "Y"] = pre ++ i :: post ∧
        (∀ j ∈ pre, lowerStr j ≠ "y" ∧ lowerStr j ≠ "n") ∧
        ((lowerStr i = "y" ∧ d = Decision.replace) ∨
          (lowerStr i = "n" ∧ d = Decision.retain)) ∧
        pEvs = (pre.map fun _ =>
            [Event.promptUser, Event.printMsg "invalid input.."]).flatten
          ++ [Event.promptUser] :=
  c8_prompt_accepts_only_yn ["x", "Y"]

/-- C9: in the declared schema every foreign key targeting `dataset` is ON
DELETE CASCADE (and inter_beat_interval, master_data, window_values each
declare one on their student_id column); consequently a cascade delete of
the dataset row with id `sid` removes exactly the rows of those three
tables whose student_id equals `sid`, keeps every row of other students,
and removes exactly the dataset row with that id. -/
theorem c9_cascade_delete_targets (sid : Int) (d : DBData) (tname : String)
    (ht : tname = "inter_beat_interval" ∨ tname = "master_data" ∨
      tname = "window_values") :
    (∀ t ∈ tableDDL, ∀ fk ∈ t.fks, fk.refTable = "dataset" →
      fk.cascade = true) ∧
    ((⟨"student_id", "dataset", "id", true⟩ : FKSpec) ∈
        interBeatIntervalDef.fks ∧
      (⟨"student_id", "dataset", "id", true⟩ : FKSpec) ∈ masterDataDef.fks ∧
      (⟨"student_id", "dataset", "id", true⟩ : FKSpec) ∈
        windowValuesDef.fks) ∧
    cascadeDeleteDataset tableDDL sid d tname =
      (d tname).filter (fun r => r "student_id" ≠ sid) ∧
    cascadeDeleteDataset tableDDL sid d "dataset" =
      (d "dataset").filter (fun r => r "id" ≠ sid) := by
  refine ⟨by decide, by decide, ?_, by rw [cascadeDeleteDataset, if_pos rfl]⟩
  rcases ht with h | h | h <;> subst h <;>
    · rw [cascadeDeleteDataset]
      rw [if_neg (by decide)]
      simp only [List.find?]
      norm_num [tableDDL, datasetDef, examDef, hrvDef, interBeatIntervalDef,
        masterDataDef, windowValuesDef]
      refine List.filter_congr ?_
      intro r _
      simp [cascadeHits, decide_not]

/-- Witness for C9 at a concrete table, student id and table contents. -/
theorem c9_cascade_delete_targets_witness :
    (∀ t ∈ tableDDL, ∀ fk ∈ t.fks, fk.refTable = "dataset" →
      fk.cascade = true) ∧
    ((⟨"student_id", "dataset", "id", true⟩ : FKSpec) ∈
        interBeatIntervalDef.fks ∧
      (⟨"student_id", "dataset", "id", true⟩ : FKSpec) ∈ masterDataDef.fks ∧
      (⟨"student_id", "dataset", "id", true⟩ : FKSpec) ∈
        windowValuesDef.fks) ∧
    cascadeDeleteDataset tableDDL 1 (fun _ => []) "inter_beat_interval" =
      (((fun _ => []) : DBData) "inter_beat_interval").filter
        (fun r => r "student_id" ≠ 1) ∧
    cascadeDeleteDataset tableDDL 1 (fun _ => []) "dataset" =
      (((fun _ => []) : DBData) "dataset").filter (fun r => r "id" ≠ 1) :=
  c9_cascade_delete_targets 1 (fun _ => []) "inter_beat_interval"
    (Or.inl rfl)

/-- C10: in every replace run, the DROP DATABASE statement names the
module constant while CREATE DATABASE and USE name the `schema_name`
parameter: the trace drops only `application_project_gaube` and creates
only `schema_name`, so the two differ whenever the parameter does. -/
theorem c10_drop_names_constant_create_names_param (s : String)
    (catalog inputs : List String) (pEvs : List Event)
    (hc : schemaFound s catalog = true)
    (hp : promptLoop inputs = some (pEvs, Decision.replace)) :
    ∃ tr, create_schema s catalog inputs = some (tr, Outcome.completed) ∧
      Event.exec (Stmt.dropDatabase schemaConst) ∈ tr ∧
      Event.exec (Stmt.createDatabase s) ∈ tr ∧
      Event.exec (Stmt.useDb s) ∈ tr ∧
      (∀ n, Event.exec (Stmt.dropDatabase n) ∈ tr → n = schemaConst) ∧
      (∀ n, Event.exec (Stmt.createDatabase n) ∈ tr → n = s) := by
  have hshape := promptLoop_events inputs pEvs Decision.replace hp
  refine ⟨Event.exec (existenceCheckStmt s)
    :: Event.printMsg ("Schema " ++ schemaConst ++ " already exists.")
    :: (pEvs ++ Event.exec (Stmt.dropDatabase schemaConst)
        :: Event.printMsg ("Schema " ++ schemaConst
            ++ " deleted successfully.")
        :: mainEvents s), ?_, ?_, ?_, ?_, ?_, ?_⟩
  · simp [create_schema, hc, hp]
  · simp
  · simp [mainEvents_split]
  · simp [mainEvents_split]
  · intro n hn
    rw [mainEvents_split] at hn
    simp only [List.mem_cons, List.mem_append] at hn
    rcases hn with hn | hn | hn
    · simp [existenceCheckStmt] at hn
    · exact Event.noConfusion hn
    rcases hn with hn | hn
    · rcases hshape _ hn with he' | ⟨m, he'⟩ <;> exact Event.noConfusion he'
    · simp at hn
      exact hn
  · intro n hn
    rw [mainEvents_split] at hn
    simp only [List.mem_cons, List.mem_append] at hn
    rcases hn with hn | hn | hn
    · simp [existenceCheckStmt] at hn
    · exact Event.noConfusion hn
    rcases hn with hn | hn
    · rcases hshape _ hn with he' | ⟨m, he'⟩ <;> exact Event.noConfusion he'
    · simp at hn
      exact hn

/-- Witness for C10 at concrete inputs: the parameter differs from the
constant, and the dropped name is not the created one. -/
theorem c10_drop_names_constant_create_names_param_witness :
    ∃ tr, create_schema "other" [schemaConst] ["y"] =
        some (tr, Outcome.completed) ∧
      Event.exec (Stmt.dropDatabase schemaConst) ∈ tr ∧
      Event.exec (Stmt.createDatabase "other") ∈ tr ∧
      Event.exec (Stmt.useDb "other") ∈ tr ∧
      (∀ n, Event.exec (Stmt.dropDatabase n) ∈ tr → n = schemaConst) ∧
      (∀ n, Event.exec (Stmt.createDatabase n) ∈ tr → n = "other") :=
  c10_drop_names_constant_create_names_param "other" [schemaConst] ["y"]
    [Event.promptUser] (by decide) (by decide)

end SqlDatabase
